import Mathlib

/-
  Verification development for the house-price data-quality gate.

  The repository consists of three Python scripts:
    - src/data_loader.py          : load CSV, validate with the engine, gate on success
    - scripts/create_expectation_suite.py : register datasource/asset/batch, define the
      expectation suite, run a checkpoint, report per-rule results, exit 0/1
    - scripts/download_data.py    : shell out to the kaggle and dvc CLIs

  The validation engine (Great Expectations) and the CLIs are external to the
  repository; their behaviour, where a claim depends on it, is modelled from the
  spec (marked in doc comments).  Everything else is embedded directly from the
  Python source.
-/

namespace HousePriceGate

/-- A cell of the dataframe: a numeric value or a null. -/
abbrev Cell := Option ℚ

/-- A loaded dataframe: ordered column names plus rows of cells.
Embeds the pandas dataframe produced by read_csv. -/
structure DataFrame where
  columns : List String
  rows : List (List Cell)
deriving DecidableEq, Repr

/-- Column name constants of the expected CSV schema. -/
def colId : String := "id"

def colDate : String := "date"

def colPrice : String := "price"

def colBedrooms : String := "bedrooms"

def colBathrooms : String := "bathrooms"

def colSqftLiving : String := "sqft_living"

def colSqftLot : String := "sqft_lot"

def colFloors : String := "floors"

def colWaterfront : String := "waterfront"

def colView : String := "view"

def colCondition : String := "condition"

def colGrade : String := "grade"

def colSqftAbove : String := "sqft_above"

def colSqftBasement : String := "sqft_basement"

def colYrBuilt : String := "yr_built"

def colYrRenovated : String := "yr_renovated"

def colZipcode : String := "zipcode"

def colLat : String := "lat"

def colLong : String := "long"

def colSqftLiving15 : String := "sqft_living15"

def colSqftLot15 : String := "sqft_lot15"

/-- The ordered column list from create_expectation_suite.py, lines 54-59. -/
def expectedColumns : List String :=
  [colId, colDate, colPrice, colBedrooms, colBathrooms, colSqftLiving,
   colSqftLot, colFloors, colWaterfront, colView, colCondition, colGrade,
   colSqftAbove, colSqftBasement, colYrBuilt, colYrRenovated,
   colZipcode, colLat, colLong, colSqftLiving15, colSqftLot15]

/-- One declarative rule of the suite.  The four constructors are the four
expectation classes instantiated in create_expectation_suite.py. -/
inductive Expectation where
  | ExpectTableColumnsToMatchOrderedList (columnList : List String)
  | ExpectColumnValuesToNotBeNull (column : String)
  | ExpectColumnValuesToBeBetween (column : String) (minValue maxValue : ℚ)
  | ExpectColumnValuesToBeInSet (column : String) (valueSet : List ℚ)
deriving DecidableEq, Repr

/-- Index of a named column in a dataframe. -/
def DataFrame.colIdx (df : DataFrame) (c : String) : Option Nat :=
  df.columns.findIdx? (fun s => s == c)

/-- The cells of a named column, if the column is present. -/
def DataFrame.columnCells (df : DataFrame) (c : String) : Option (List Cell) :=
  (df.colIdx c).map (fun i => df.rows.map (fun r => r.getD i none))

/-- The cells of a named column, defaulting to the empty list when absent. -/
def cellsOf (df : DataFrame) (c : String) : List Cell :=
  (df.columnCells c).getD []

/-- Modelled from the spec: the external validation engine's evaluation of a
single rule against a dataframe (the engine itself is not in the repository).
Per the spec, a rule is a predicate over a named column evaluated
independently: column-presence, null-ness, range, and set-membership checks.
Null cells satisfy range and set-membership rules (only the non-null rule
rejects them); a rule on an absent column fails. -/
def evalExpectation (e : Expectation) (df : DataFrame) : Bool :=
  match e with
  | .ExpectTableColumnsToMatchOrderedList cols => df.columns == cols
  | .ExpectColumnValuesToNotBeNull c =>
      match df.columnCells c with
      | none => false
      | some cells => cells.all (fun v => v.isSome)
  | .ExpectColumnValuesToBeBetween c lo hi =>
      match df.columnCells c with
      | none => false
      | some cells =>
          cells.all (fun v =>
            match v with
            | none => true
            | some x => decide (lo ≤ x ∧ x ≤ hi))
  | .ExpectColumnValuesToBeInSet c s =>
      match df.columnCells c with
      | none => false
      | some cells =>
          cells.all (fun v =>
            match v with
            | none => true
            | some x => decide (x ∈ s))

/-- Suite name constant from create_expectation_suite.py, line 46. -/
def suite_name : String := "kc_house_raw"

/-- The eight rules of the kc_house_raw suite, embedded from
create_expectation_suite.py lines 48-80 (bounds 1e4 and 1e7 written out). -/
def kcHouseExpectations : List Expectation :=
  [ .ExpectTableColumnsToMatchOrderedList expectedColumns,
    .ExpectColumnValuesToNotBeNull colPrice,
    .ExpectColumnValuesToNotBeNull colBedrooms,
    .ExpectColumnValuesToNotBeNull colBathrooms,
    .ExpectColumnValuesToBeBetween colPrice 10000 10000000,
    .ExpectColumnValuesToBeBetween colBedrooms 0 33,
    .ExpectColumnValuesToBeBetween colBathrooms 0 10,
    .ExpectColumnValuesToBeInSet colWaterfront [0, 1] ]

/-- Per-rule outcome in a validation result. -/
structure RuleResult where
  rule : Expectation
  success : Bool
deriving DecidableEq, Repr

/-- Modelled from the spec: the per-rule result list of a validation run
(the engine's result object is external); each rule is evaluated
independently against the batch. -/
def runRuleResults (suite : List Expectation) (df : DataFrame) : List RuleResult :=
  suite.map (fun e => ⟨e, evalExpectation e df⟩)

/-- Modelled from the spec: the whole-suite success flag of a validation run,
written as a direct conjunction over the rules. -/
def validateAll (suite : List Expectation) (df : DataFrame) : Bool :=
  match suite with
  | [] => true
  | e :: rest => evalExpectation e df && validateAll rest df

/-- A validation run's outcome: per-rule results plus the overall flag. -/
structure ValidationResult where
  results : List RuleResult
  success : Bool
deriving DecidableEq, Repr

/-- Modelled from the spec: one execution of a suite against a batch,
producing a success flag and per-rule results. -/
def runValidation (suite : List Expectation) (df : DataFrame) : ValidationResult :=
  ⟨runRuleResults suite df, validateAll suite df⟩

/-- Observable steps of load_data, in source order (data_loader.py 33-60). -/
inductive LoadEvent where
  | checkedFileExists
  | readCsv
  | gotValidator
  | ranValidation
  | openedDataDocs
deriving DecidableEq, Repr

/-- The two exceptions load_data raises (data_loader.py docstring, 29-31). -/
inductive LoadError where
  | fileNotFoundError
  | valueError
deriving DecidableEq, Repr

/-- Result of a load_data call: the returned dataframe or the raised error,
together with the trace of steps performed. -/
structure LoadOutcome where
  result : Except LoadError DataFrame
  events : List LoadEvent
deriving Repr

/-- Embedding of load_data (data_loader.py lines 11-60).  The filesystem is a
map from paths to the dataframe read_csv would produce; the expectation suite
the engine resolves for the configured name is passed explicitly.  Steps in
source order: existence check, read_csv, get_validator, validate, then either
return df, or open data docs and raise ValueError. -/
def load_data (suite : List Expectation) (fs : String → Option DataFrame)
    (data_file_path : String) : LoadOutcome :=
  match fs data_file_path with
  | none => ⟨.error .fileNotFoundError, [.checkedFileExists]⟩
  | some df =>
      let validation_result := runValidation suite df
      if validation_result.success then
        ⟨.ok df,
         [.checkedFileExists, .readCsv, .gotValidator, .ranValidation]⟩
      else
        ⟨.error .valueError,
         [.checkedFileExists, .readCsv, .gotValidator, .ranValidation,
          .openedDataDocs]⟩

/-- Name constants from create_expectation_suite.py. -/
def datasource_name : String := "kc_house_datasource"

def data_asset_name : String := "kc_house_data"

def batch_definition_name : String := "whole_file"

def validation_definition_name : String := "kc_house_validation"

def checkpoint_name : String := "kc_house_checkpoint"

/-- A named suite registered in the engine's project state. -/
structure SuiteRecord where
  name : String
  expectations : List Expectation
deriving DecidableEq, Repr

/-- Modelled from the spec: suites.add_or_update of the external engine.
Per the spec it overwrites any existing suite of the same name rather than
erroring on duplicates, and adds the suite when the name is new. -/
def suitesAddOrUpdate (l : List SuiteRecord) (rec : SuiteRecord) : List SuiteRecord :=
  if l.any (fun s => s.name == rec.name) then
    l.map (fun s => if s.name == rec.name then rec else s)
  else
    l ++ [rec]

/-- The engine's project state touched by create_expectation_suite.py:
registered datasources, dataframe assets, batch definitions, suites,
validation definitions and checkpoints, each kept as the list of
registrations in order. -/
structure GxContext where
  dataSources : List String
  dataAssets : List String
  batchDefinitions : List String
  suites : List SuiteRecord
  validationDefinitions : List String
  checkpoints : List String
deriving DecidableEq, Repr

/-- Get-or-add of the pandas datasource, embedded from
create_expectation_suite.py lines 26-29 (the script checks membership
before adding). -/
def getOrAddDataSource (ctx : GxContext) (n : String) : GxContext :=
  if n ∈ ctx.dataSources then ctx
  else { ctx with dataSources := ctx.dataSources ++ [n] }

/-- Registration of the dataframe asset (line 31, unconditional). -/
def add_dataframe_asset (ctx : GxContext) (n : String) : GxContext :=
  { ctx with dataAssets := ctx.dataAssets ++ [n] }

/-- Registration of the whole-dataframe batch definition (line 32). -/
def add_batch_definition_whole_dataframe (ctx : GxContext) (n : String) : GxContext :=
  { ctx with batchDefinitions := ctx.batchDefinitions ++ [n] }

/-- The suites.add_or_update call on the context (line 48). -/
def add_or_update (ctx : GxContext) (rec : SuiteRecord) : GxContext :=
  { ctx with suites := suitesAddOrUpdate ctx.suites rec }

/-- The error create_expectation_suite.py raises when the CSV is absent. -/
inductive SuiteScriptError where
  | fileNotFoundError
deriving DecidableEq, Repr

/-- Outcome of one run of create_expectation_suite.py: the engine state left
behind, the script's result (checkpoint success flag, or the raised error),
and the process exit code (an uncaught exception exits nonzero, modelled
as 1). -/
structure SuiteScriptRun where
  finalContext : GxContext
  outcome : Except SuiteScriptError Bool
  exitCode : Nat
deriving Repr

/-- Embedding of create_expectation_suite.py as a state transformer, steps in
source order: get-or-add datasource (26-29), add asset (31), add batch
definition (32), check the CSV exists (38-39, raising FileNotFoundError),
then add-or-update the suite (48-80), add the validation definition (90),
add the checkpoint (100), run the checkpoint (105) and exit 1 when it
failed (122-123).  The checkpoint run and the add calls after the CSV check
are modelled from the spec (the engine is external). -/
def create_expectation_suite (ctx0 : GxContext) (csv : Option DataFrame) :
    SuiteScriptRun :=
  let ctx1 := getOrAddDataSource ctx0 datasource_name
  let ctx2 := add_dataframe_asset ctx1 data_asset_name
  let ctx3 := add_batch_definition_whole_dataframe ctx2 batch_definition_name
  match csv with
  | none => ⟨ctx3, .error .fileNotFoundError, 1⟩
  | some df =>
      let ctx4 := add_or_update ctx3 ⟨suite_name, kcHouseExpectations⟩
      let ctx5 := { ctx4 with
        validationDefinitions :=
          ctx4.validationDefinitions ++ [validation_definition_name] }
      let ctx6 := { ctx5 with checkpoints := ctx5.checkpoints ++ [checkpoint_name] }
      let checkpoint_result := runValidation kcHouseExpectations df
      ⟨ctx6, .ok checkpoint_result.success,
       if checkpoint_result.success then 0 else 1⟩

/-- Outcome of one subprocess.run call in download_data.py. -/
inductive ProcOutcome where
  | success
  | nonzeroExit
  | toolNotFound
deriving DecidableEq, Repr

/-- Observable steps of download_data.py. -/
inductive DownloadEvent where
  | invokedKaggleDownload
  | printedKaggleDiagnostic
  | invokedDvcAdd
  | printedDvcAddDiagnostic
  | invokedDvcStatus
  | printedDvcStatusDiagnostic
deriving DecidableEq, Repr

/-- Outcome of one run of download_data.py: process exit code, the trace of
tool invocations and printed diagnostics, and whether an exception escaped
uncaught (Python then exits nonzero without a script diagnostic). -/
structure DownloadRun where
  exitCode : Nat
  events : List DownloadEvent
  uncaught : Bool
deriving DecidableEq, Repr

/-- Embedding of download_data.py's main path (lines 54-63), parametrised by
the outcome of each external tool invocation.  download_kaggle_dataset
(15-37) catches both a nonzero exit and a missing tool, prints a diagnostic
and calls exit(1).  init_dvc_for_data (39-52, initialize_dvc_for_data in the
source) catches only the nonzero exit — a missing dvc executable raises
uncaught.  The final dvc-status check (58-63) catches the nonzero exit,
prints a diagnostic, and falls through to a normal exit 0. -/
def download_data_main (kaggle dvcAdd dvcStatus : ProcOutcome) : DownloadRun :=
  match kaggle with
  | .nonzeroExit =>
      ⟨1, [.invokedKaggleDownload, .printedKaggleDiagnostic], false⟩
  | .toolNotFound =>
      ⟨1, [.invokedKaggleDownload, .printedKaggleDiagnostic], false⟩
  | .success =>
    match dvcAdd with
    | .nonzeroExit =>
        ⟨1, [.invokedKaggleDownload, .invokedDvcAdd, .printedDvcAddDiagnostic],
         false⟩
    | .toolNotFound =>
        ⟨1, [.invokedKaggleDownload, .invokedDvcAdd], true⟩
    | .success =>
      match dvcStatus with
      | .nonzeroExit =>
          ⟨0, [.invokedKaggleDownload, .invokedDvcAdd, .invokedDvcStatus,
               .printedDvcStatusDiagnostic], false⟩
      | .toolNotFound =>
          ⟨1, [.invokedKaggleDownload, .invokedDvcAdd, .invokedDvcStatus], true⟩
      | .success =>
          ⟨0, [.invokedKaggleDownload, .invokedDvcAdd, .invokedDvcStatus], false⟩

/-- An exception surfacing from the load_data call as the __main__ block of
data_loader.py sees it: the two documented errors, or anything else. -/
inductive PyError where
  | fileNotFoundError
  | valueError
  | otherException
deriving DecidableEq, Repr

/-- How the __main__ block of data_loader.py terminates. -/
inductive MainExit where
  | exited (code : Nat)
  | raisedUncaught (e : PyError)
deriving DecidableEq, Repr

/-- Embedding of the __main__ block of data_loader.py (lines 62-87): if the
YAML config file is absent, print and exit 1 before any load; otherwise call
load_data, catching exactly FileNotFoundError and ValueError into a printed
message and exit 1; any other exception propagates uncaught.  The returned
Bool records whether load_data was invoked. -/
def data_loader_main (configExists : Bool) (loadResult : Except PyError DataFrame) :
    MainExit × Bool :=
  if configExists then
    match loadResult with
    | .ok _ => (.exited 0, true)
    | .error .fileNotFoundError => (.exited 1, true)
    | .error .valueError => (.exited 1, true)
    | .error .otherException => (.raisedUncaught .otherException, true)
  else
    (.exited 1, false)

/-!  Concrete fixtures used to instantiate the theorems below. -/

/-- A demo CSV path for concrete instantiations. -/
def demoPath : String := "data/raw/kc_house_data.csv"

/-- One well-formed CSV row (first row of the King County sample, rounded to
integers where the sample has decimals). -/
def witRow : List Cell :=
  [some 1, some 20141013, some 221900, some 3, some 1, some 1180, some 5650,
   some 1, some 0, some 0, some 3, some 7, some 1180, some 0, some 1955,
   some 0, some 98178, some 47, some (-122), some 1340, some 5650]

/-- A dataframe with the expected columns and one well-formed row. -/
def witDf : DataFrame := ⟨expectedColumns, [witRow]⟩

/-- witRow with the bedrooms cell set to 34 (just above the rule's bound). -/
def badRow : List Cell :=
  [some 1, some 20141013, some 221900, some 34, some 1, some 1180, some 5650,
   some 1, some 0, some 0, some 3, some 7, some 1180, some 0, some 1955,
   some 0, some 98178, some 47, some (-122), some 1340, some 5650]

/-- A dataframe whose only row has bedrooms = 34. -/
def badDf : DataFrame := ⟨expectedColumns, [badRow]⟩

/-- A filesystem with no files. -/
def emptyFs : String → Option DataFrame := fun _ => none

/-- A filesystem holding the well-formed dataframe at every path. -/
def witFs : String → Option DataFrame := fun _ => some witDf

/-- A filesystem holding the bedrooms-34 dataframe at every path. -/
def badFs : String → Option DataFrame := fun _ => some badDf

/-!  Helper lemmas about the validation run. -/

/-- The recursive success flag agrees with List.all over the rules. -/
theorem validateAll_eq_all (suite : List Expectation) (df : DataFrame) :
    validateAll suite df = suite.all (fun e => evalExpectation e df) := by
  induction suite with
  | nil => rfl
  | cons e rest ih => simp [validateAll, ih]

/-- One failing rule forces the whole-suite flag to false. -/
theorem validateAll_eq_false_of_mem {suite : List Expectation} {df : DataFrame}
    {e : Expectation} (he : e ∈ suite) (hf : evalExpectation e df = false) :
    validateAll suite df = false := by
  rw [validateAll_eq_all]
  cases h : suite.all (fun e => evalExpectation e df) with
  | false => rfl
  | true =>
      exfalso
      rw [List.all_eq_true] at h
      have := h e he
      rw [hf] at this
      exact Bool.false_ne_true this

/-!  Claim theorems. -/

/-- C1: load_data returns a dataframe only when the validation run's overall
success flag is true, and the returned dataframe is the one read from the
file; whenever any rule of the suite fails on the loaded dataframe,
load_data raises ValueError instead of returning it. -/
theorem load_data_gate_only_on_success (suite : List Expectation)
    (fs : String → Option DataFrame) (p : String) :
    (∀ df, (load_data suite fs p).result = Except.ok df →
      fs p = some df ∧ (runValidation suite df).success = true) ∧
    (∀ df e, fs p = some df → e ∈ suite → evalExpectation e df = false →
      (load_data suite fs p).result = Except.error LoadError.valueError) := by
  constructor
  · intro df h
    unfold load_data at h
    cases hfs : fs p with
    | none =>
        rw [hfs] at h
        simp at h
    | some df0 =>
        rw [hfs] at h
        cases hs : (runValidation suite df0).success with
        | false => simp [hs] at h
        | true =>
            simp [hs] at h
            subst h
            exact ⟨rfl, hs⟩
  · intro df e hfs he hf
    unfold load_data
    rw [hfs]
    have hs : (runValidation suite df).success = false :=
      validateAll_eq_false_of_mem he hf
    simp [hs]

/-- Witness for C1: with the bedrooms-34 dataframe on disk, load_data raises
ValueError. -/
theorem load_data_gate_only_on_success_witness :
    (load_data kcHouseExpectations badFs demoPath).result
      = Except.error LoadError.valueError :=
  (load_data_gate_only_on_success kcHouseExpectations badFs demoPath).2 badDf
    (Expectation.ExpectColumnValuesToBeBetween colBedrooms 0 33) rfl
    (by decide) (by decide)

/-- C4: the whole-suite success flag equals the conjunction of the per-rule
success booleans; the per-rule result list covers exactly the suite's rules
in order, and a rule is marked failed in it exactly when that rule fails on
the dataframe. -/
theorem checkpoint_success_is_and_of_rules (suite : List Expectation)
    (df : DataFrame) :
    (runValidation suite df).success
      = (runValidation suite df).results.all (fun r => r.success) ∧
    (runValidation suite df).results.map (fun r => r.rule) = suite ∧
    ∀ r ∈ (runValidation suite df).results,
      (r.success = false ↔ evalExpectation r.rule df = false) := by
  refine ⟨?_, ?_, ?_⟩
  · show validateAll suite df = (runRuleResults suite df).all (fun r => r.success)
    rw [validateAll_eq_all]
    induction suite with
    | nil => rfl
    | cons e t ih =>
        simp only [runRuleResults] at ih ⊢
        simp [List.all_cons, ih]
  · show (runRuleResults suite df).map (fun r => r.rule) = suite
    induction suite with
    | nil => rfl
    | cons e t ih => simp only [runRuleResults, List.map_cons, List.map_map] at ih ⊢; rw [ih]
  · intro r hr
    have hr2 : r ∈ runRuleResults suite df := hr
    unfold runRuleResults at hr2
    rw [List.mem_map] at hr2
    obtain ⟨e, _, rfl⟩ := hr2
    exact Iff.rfl

/-- Witness for C4: the per-rule entry for the price non-null rule on the
well-formed dataframe is marked passed exactly because the rule passes. -/
theorem checkpoint_success_is_and_of_rules_witness :
    ((⟨Expectation.ExpectColumnValuesToNotBeNull colPrice, true⟩ : RuleResult).success
        = false
      ↔ evalExpectation
          ((⟨Expectation.ExpectColumnValuesToNotBeNull colPrice, true⟩ :
            RuleResult)).rule witDf = false) :=
  (checkpoint_success_is_and_of_rules kcHouseExpectations witDf).2.2
    ⟨Expectation.ExpectColumnValuesToNotBeNull colPrice, true⟩ (by decide)

/-- C7: for a dataframe missing the price column, the columns-match rule
fails and the overall success flag is false. -/
theorem missing_price_column_fails (df : DataFrame)
    (h : colPrice ∉ df.columns) :
    evalExpectation
        (Expectation.ExpectTableColumnsToMatchOrderedList expectedColumns) df
      = false ∧
    (runValidation kcHouseExpectations df).success = false := by
  have hne : df.columns ≠ expectedColumns := by
    intro he
    rw [he] at h
    exact h (by decide)
  have h1 : evalExpectation
      (Expectation.ExpectTableColumnsToMatchOrderedList expectedColumns) df
      = false := by
    unfold evalExpectation
    exact beq_eq_false_iff_ne.mpr hne
  refine ⟨h1, ?_⟩
  show validateAll kcHouseExpectations df = false
  exact validateAll_eq_false_of_mem (by decide) h1

/-- A dataframe with the expected columns has each column's cells at the
column's index in the ordered list. -/
theorem columnCells_of_expected (df : DataFrame)
    (hcols : df.columns = expectedColumns) (c : String) (i : Nat)
    (hidx : expectedColumns.findIdx? (fun s => s == c) = some i) :
    df.columnCells c = some (df.rows.map (fun r => r.getD i none)) := by
  unfold DataFrame.columnCells DataFrame.colIdx
  rw [hcols, hidx]
  rfl

/-- cellsOf under the expected columns, phrased through the column index. -/
theorem cellsOf_of_expected (df : DataFrame)
    (hcols : df.columns = expectedColumns) (c : String) (i : Nat)
    (hidx : expectedColumns.findIdx? (fun s => s == c) = some i) :
    cellsOf df c = df.rows.map (fun r => r.getD i none) := by
  unfold cellsOf
  rw [columnCells_of_expected df hcols c i hidx]
  rfl

/-- C6: a dataframe with the expected columns in which some row has
bedrooms = 34 fails the bedrooms range rule and the overall success flag is
false; the other rules may still pass, witnessed by a dataframe failing only
this rule. -/
theorem bedrooms_34_range_rule_fails (df : DataFrame)
    (hcols : df.columns = expectedColumns)
    (h34 : some (34 : ℚ) ∈ cellsOf df colBedrooms) :
    evalExpectation
        (Expectation.ExpectColumnValuesToBeBetween colBedrooms 0 33) df
      = false ∧
    (runValidation kcHouseExpectations df).success = false ∧
    ∃ df0 : DataFrame, some (34 : ℚ) ∈ cellsOf df0 colBedrooms ∧
      (runValidation kcHouseExpectations df0).success = false ∧
      ∀ e ∈ kcHouseExpectations,
        e ≠ Expectation.ExpectColumnValuesToBeBetween colBedrooms 0 33 →
          evalExpectation e df0 = true := by
  have hcells : df.columnCells colBedrooms
      = some (df.rows.map (fun r => r.getD 3 none)) :=
    columnCells_of_expected df hcols colBedrooms 3 (by decide)
  have hmem : some (34 : ℚ) ∈ df.rows.map (fun r => r.getD 3 none) := by
    rw [cellsOf_of_expected df hcols colBedrooms 3 (by decide)] at h34
    exact h34
  have h1 : evalExpectation
      (Expectation.ExpectColumnValuesToBeBetween colBedrooms 0 33) df
      = false := by
    simp only [evalExpectation]
    rw [hcells]
    cases hall : (df.rows.map (fun r => r.getD 3 none)).all
        (fun v => match v with
          | none => true
          | some x => decide (0 ≤ x ∧ x ≤ 33)) with
    | false => exact hall
    | true =>
        exfalso
        rw [List.all_eq_true] at hall
        have hv := hall _ hmem
        exact absurd (of_decide_eq_true hv).2 (by norm_num)
  refine ⟨h1, ?_, ?_⟩
  · show validateAll kcHouseExpectations df = false
    exact validateAll_eq_false_of_mem (by decide) h1
  · exact ⟨badDf, by decide, by decide, by decide⟩

/-- Witness for C6 at the concrete bedrooms-34 dataframe. -/
theorem bedrooms_34_range_rule_fails_witness :
    (runValidation kcHouseExpectations badDf).success = false :=
  (bedrooms_34_range_rule_fails badDf rfl (by decide)).2.1

/-- Witness for C7 at a two-column dataframe without price. -/
theorem missing_price_column_fails_witness :
    (runValidation kcHouseExpectations (⟨[colId, colDate], []⟩ : DataFrame)).success
      = false :=
  (missing_price_column_fails ⟨[colId, colDate], []⟩ (by decide)).2

/-- C5: for a nonexistent data file path, load_data raises FileNotFoundError
immediately; the validator is never constructed and no rule is evaluated. -/
theorem missing_file_raises_before_validation (suite : List Expectation)
    (fs : String → Option DataFrame) (p : String) (h : fs p = none) :
    (load_data suite fs p).result = Except.error LoadError.fileNotFoundError ∧
    LoadEvent.gotValidator ∉ (load_data suite fs p).events ∧
    LoadEvent.ranValidation ∉ (load_data suite fs p).events := by
  unfold load_data
  rw [h]
  exact ⟨rfl, by simp, by simp⟩

/-- Witness for C5 at a concrete empty filesystem. -/
theorem missing_file_raises_before_validation_witness :
    (load_data kcHouseExpectations emptyFs demoPath).result
      = Except.error LoadError.fileNotFoundError :=
  (missing_file_raises_before_validation kcHouseExpectations emptyFs demoPath rfl).1

/-- C8 counterexample: the download and dvc-add both succeed and the final
dvc-status invocation exits nonzero; a version-control CLI exited nonzero
and a diagnostic is printed, yet the script's process exit code is 0, not
the nonzero exit the claim requires. -/
theorem dvc_status_nonzero_exits_zero :
    (download_data_main ProcOutcome.success ProcOutcome.success
        ProcOutcome.nonzeroExit).exitCode = 0 ∧
    DownloadEvent.printedDvcStatusDiagnostic
      ∈ (download_data_main ProcOutcome.success ProcOutcome.success
          ProcOutcome.nonzeroExit).events := by
  decide

/-- C8 amended: a failed kaggle download or a failed dvc add prints a
diagnostic and exits 1 without invoking the next tool and without retrying
(every tool is invoked at most once); the all-success run exits 0; but a
nonzero dvc-status exit only prints a diagnostic — the script still exits
with code 0. -/
theorem download_data_exit_behavior (k a s : ProcOutcome) :
    (k ≠ ProcOutcome.success →
      (download_data_main k a s).exitCode = 1 ∧
      DownloadEvent.printedKaggleDiagnostic ∈ (download_data_main k a s).events ∧
      DownloadEvent.invokedDvcAdd ∉ (download_data_main k a s).events) ∧
    (a = ProcOutcome.nonzeroExit →
      (download_data_main ProcOutcome.success a s).exitCode = 1 ∧
      DownloadEvent.printedDvcAddDiagnostic
        ∈ (download_data_main ProcOutcome.success a s).events ∧
      DownloadEvent.invokedDvcStatus
        ∉ (download_data_main ProcOutcome.success a s).events) ∧
    (s = ProcOutcome.nonzeroExit →
      (download_data_main ProcOutcome.success ProcOutcome.success s).exitCode = 0 ∧
      DownloadEvent.printedDvcStatusDiagnostic
        ∈ (download_data_main ProcOutcome.success ProcOutcome.success s).events) ∧
    (download_data_main ProcOutcome.success ProcOutcome.success
        ProcOutcome.success).exitCode = 0 ∧
    ((download_data_main k a s).events.count DownloadEvent.invokedKaggleDownload ≤ 1 ∧
     (download_data_main k a s).events.count DownloadEvent.invokedDvcAdd ≤ 1 ∧
     (download_data_main k a s).events.count DownloadEvent.invokedDvcStatus ≤ 1) := by
  cases k <;> cases a <;> cases s <;> decide

/-- Witness for the amended C8 at a concrete failed download. -/
theorem download_data_exit_behavior_witness :
    (download_data_main ProcOutcome.nonzeroExit ProcOutcome.success
        ProcOutcome.success).exitCode = 1 :=
  ((download_data_exit_behavior ProcOutcome.nonzeroExit ProcOutcome.success
      ProcOutcome.success).1 (by decide)).1

/-- C9: when the CSV is missing, create_expectation_suite has already
registered the datasource, dataframe asset and batch definition, raises
FileNotFoundError (exit 1), and has added no suite, validation definition or
checkpoint — the failure is not atomic with respect to the engine state. -/
theorem create_suite_missing_csv_side_effects (ctx0 : GxContext) :
    (create_expectation_suite ctx0 none).outcome
      = Except.error SuiteScriptError.fileNotFoundError ∧
    (create_expectation_suite ctx0 none).exitCode = 1 ∧
    (create_expectation_suite ctx0 none).finalContext.dataSources
      = (getOrAddDataSource ctx0 datasource_name).dataSources ∧
    (create_expectation_suite ctx0 none).finalContext.dataAssets
      = ctx0.dataAssets ++ [data_asset_name] ∧
    (create_expectation_suite ctx0 none).finalContext.batchDefinitions
      = ctx0.batchDefinitions ++ [batch_definition_name] ∧
    (create_expectation_suite ctx0 none).finalContext.suites = ctx0.suites ∧
    (create_expectation_suite ctx0 none).finalContext.validationDefinitions
      = ctx0.validationDefinitions ∧
    (create_expectation_suite ctx0 none).finalContext.checkpoints
      = ctx0.checkpoints := by
  unfold create_expectation_suite add_batch_definition_whole_dataframe
    add_dataframe_asset getOrAddDataSource
  by_cases h : datasource_name ∈ ctx0.dataSources <;> simp [h]

/-- C10: with the YAML config missing, __main__ prints and exits 1 without
invoking load_data; with the config present, a FileNotFoundError or
ValueError from load_data becomes a printed message and exit 1, a returned
dataframe leads to exit 0, and any other exception propagates uncaught. -/
theorem data_loader_main_error_paths :
    (∀ r : Except PyError DataFrame,
      data_loader_main false r = (MainExit.exited 1, false)) ∧
    (∀ df : DataFrame,
      data_loader_main true (Except.ok df) = (MainExit.exited 0, true)) ∧
    data_loader_main true (Except.error PyError.fileNotFoundError)
      = (MainExit.exited 1, true) ∧
    data_loader_main true (Except.error PyError.valueError)
      = (MainExit.exited 1, true) ∧
    data_loader_main true (Except.error PyError.otherException)
      = (MainExit.raisedUncaught PyError.otherException, true) :=
  ⟨fun _ => rfl, fun _ => rfl, rfl, rfl, rfl⟩

/-- The non-null rule passes when every cell of the column is non-null. -/
theorem eval_notNull_true {df : DataFrame} {c : String} {L : List Cell}
    (hL : df.columnCells c = some L)
    (h : ∀ v ∈ L, Option.isSome v = true) :
    evalExpectation (Expectation.ExpectColumnValuesToNotBeNull c) df = true := by
  simp only [evalExpectation]
  rw [hL]
  rw [List.all_eq_true]
  exact h

/-- The range rule passes when every non-null cell of the column is within
the bounds. -/
theorem eval_between_true {df : DataFrame} {c : String} {L : List Cell}
    {lo hi : ℚ} (hL : df.columnCells c = some L)
    (h : ∀ v ∈ L, ∀ x : ℚ, v = some x → lo ≤ x ∧ x ≤ hi) :
    evalExpectation (Expectation.ExpectColumnValuesToBeBetween c lo hi) df
      = true := by
  simp only [evalExpectation]
  rw [hL]
  rw [List.all_eq_true]
  intro v hv
  cases v with
  | none => rfl
  | some x => exact decide_eq_true (h (some x) hv x rfl)

/-- The set-membership rule passes when every non-null cell of the column is
in the allowed set. -/
theorem eval_inSet_true {df : DataFrame} {c : String} {L : List Cell}
    {s : List ℚ} (hL : df.columnCells c = some L)
    (h : ∀ v ∈ L, ∀ x : ℚ, v = some x → x ∈ s) :
    evalExpectation (Expectation.ExpectColumnValuesToBeInSet c s) df = true := by
  simp only [evalExpectation]
  rw [hL]
  rw [List.all_eq_true]
  intro v hv
  cases v with
  | none => rfl
  | some x => exact decide_eq_true (h (some x) hv x rfl)

/-- C2: any dataframe whose columns exactly match the expected ordered list,
with every price in [1e4, 1e7], every bedrooms in [0, 33], every bathrooms
in [0, 10], every waterfront in {0, 1}, and no nulls in price, bedrooms or
bathrooms, passes validation, and load_data returns exactly the loaded
dataframe. -/
theorem valid_csv_loads_unchanged (df : DataFrame)
    (fs : String → Option DataFrame) (p : String)
    (hfs : fs p = some df)
    (hcols : df.columns = expectedColumns)
    (hprice : ∀ v ∈ cellsOf df colPrice,
      ∃ x : ℚ, v = some x ∧ 10000 ≤ x ∧ x ≤ 10000000)
    (hbed : ∀ v ∈ cellsOf df colBedrooms,
      ∃ x : ℚ, v = some x ∧ 0 ≤ x ∧ x ≤ 33)
    (hbath : ∀ v ∈ cellsOf df colBathrooms,
      ∃ x : ℚ, v = some x ∧ 0 ≤ x ∧ x ≤ 10)
    (hwater : ∀ v ∈ cellsOf df colWaterfront, v = some 0 ∨ v = some 1) :
    (runValidation kcHouseExpectations df).success = true ∧
    (load_data kcHouseExpectations fs p).result = Except.ok df := by
  have hcp : df.columnCells colPrice
      = some (df.rows.map (fun r => r.getD 2 none)) :=
    columnCells_of_expected df hcols colPrice 2 (by decide)
  have hcb : df.columnCells colBedrooms
      = some (df.rows.map (fun r => r.getD 3 none)) :=
    columnCells_of_expected df hcols colBedrooms 3 (by decide)
  have hcba : df.columnCells colBathrooms
      = some (df.rows.map (fun r => r.getD 4 none)) :=
    columnCells_of_expected df hcols colBathrooms 4 (by decide)
  have hcw : df.columnCells colWaterfront
      = some (df.rows.map (fun r => r.getD 8 none)) :=
    columnCells_of_expected df hcols colWaterfront 8 (by decide)
  rw [cellsOf_of_expected df hcols colPrice 2 (by decide)] at hprice
  rw [cellsOf_of_expected df hcols colBedrooms 3 (by decide)] at hbed
  rw [cellsOf_of_expected df hcols colBathrooms 4 (by decide)] at hbath
  rw [cellsOf_of_expected df hcols colWaterfront 8 (by decide)] at hwater
  have e1 : evalExpectation
      (Expectation.ExpectTableColumnsToMatchOrderedList expectedColumns) df
      = true := by
    simp only [evalExpectation]
    rw [hcols]
    exact beq_self_eq_true _
  have e2 : evalExpectation
      (Expectation.ExpectColumnValuesToNotBeNull colPrice) df = true :=
    eval_notNull_true hcp (fun v hv => by
      obtain ⟨x, hx, -⟩ := hprice v hv
      rw [hx]
      rfl)
  have e3 : evalExpectation
      (Expectation.ExpectColumnValuesToNotBeNull colBedrooms) df = true :=
    eval_notNull_true hcb (fun v hv => by
      obtain ⟨x, hx, -⟩ := hbed v hv
      rw [hx]
      rfl)
  have e4 : evalExpectation
      (Expectation.ExpectColumnValuesToNotBeNull colBathrooms) df = true :=
    eval_notNull_true hcba (fun v hv => by
      obtain ⟨x, hx, -⟩ := hbath v hv
      rw [hx]
      rfl)
  have e5 : evalExpectation
      (Expectation.ExpectColumnValuesToBeBetween colPrice 10000 10000000) df
      = true :=
    eval_between_true hcp (fun v hv x hx => by
      obtain ⟨y, hy, h1, h2⟩ := hprice v hv
      rw [hy] at hx
      cases hx
      exact ⟨h1, h2⟩)
  have e6 : evalExpectation
      (Expectation.ExpectColumnValuesToBeBetween colBedrooms 0 33) df
      = true :=
    eval_between_true hcb (fun v hv x hx => by
      obtain ⟨y, hy, h1, h2⟩ := hbed v hv
      rw [hy] at hx
      cases hx
      exact ⟨h1, h2⟩)
  have e7 : evalExpectation
      (Expectation.ExpectColumnValuesToBeBetween colBathrooms 0 10) df
      = true :=
    eval_between_true hcba (fun v hv x hx => by
      obtain ⟨y, hy, h1, h2⟩ := hbath v hv
      rw [hy] at hx
      cases hx
      exact ⟨h1, h2⟩)
  have e8 : evalExpectation
      (Expectation.ExpectColumnValuesToBeInSet colWaterfront [0, 1]) df
      = true :=
    eval_inSet_true hcw (fun v hv x hx => by
      rcases hwater v hv with h0 | h0 <;> rw [h0] at hx <;> cases hx <;> simp)
  have hsucc : (runValidation kcHouseExpectations df).success = true := by
    show validateAll kcHouseExpectations df = true
    simp only [kcHouseExpectations, validateAll, e1, e2, e3, e4, e5, e6, e7, e8,
      Bool.true_and]
  refine ⟨hsucc, ?_⟩
  unfold load_data
  rw [hfs]
  simp [hsucc]

/-- Witness for C2 at the concrete well-formed dataframe. -/
theorem valid_csv_loads_unchanged_witness :
    (load_data kcHouseExpectations witFs demoPath).result = Except.ok witDf :=
  (valid_csv_loads_unchanged witDf witFs demoPath rfl rfl
    (by
      intro v hv
      have hc : cellsOf witDf colPrice = [some 221900] := by decide
      rw [hc] at hv
      simp only [List.mem_singleton] at hv
      exact ⟨221900, hv, by norm_num, by norm_num⟩)
    (by
      intro v hv
      have hc : cellsOf witDf colBedrooms = [some 3] := by decide
      rw [hc] at hv
      simp only [List.mem_singleton] at hv
      exact ⟨3, hv, by norm_num, by norm_num⟩)
    (by
      intro v hv
      have hc : cellsOf witDf colBathrooms = [some 1] := by decide
      rw [hc] at hv
      simp only [List.mem_singleton] at hv
      exact ⟨1, hv, by norm_num, by norm_num⟩)
    (by decide)).2

/-!  Lemmas about add-or-update on the suite registry. -/

/-- Replacing the matching records of a list commutes with filtering for
them: the filtered survivors are all the replacement. -/
theorem filter_map_replace (l : List SuiteRecord) (rec : SuiteRecord) :
    (l.map (fun s => if s.name == rec.name then rec else s)).filter
        (fun s => s.name == rec.name)
      = List.replicate (l.filter (fun s => s.name == rec.name)).length rec := by
  induction l with
  | nil => rfl
  | cons a t ih =>
      cases h : (a.name == rec.name) with
      | true =>
          rw [beq_iff_eq] at h
          simp at ih
          simp [h, ih, List.replicate_succ]
      | false =>
          rw [beq_eq_false_iff_ne] at h
          simp at ih
          simp [h, ih]

/-- The record written by add-or-update is present afterwards. -/
theorem mem_suitesAddOrUpdate (l : List SuiteRecord) (rec : SuiteRecord) :
    rec ∈ suitesAddOrUpdate l rec := by
  unfold suitesAddOrUpdate
  cases h : l.any (fun s => s.name == rec.name) with
  | true =>
      simp only [h, if_true]
      rw [List.any_eq_true] at h
      obtain ⟨s0, hs0, hname⟩ := h
      exact List.mem_map.mpr ⟨s0, hs0, by simp [hname]⟩
  | false =>
      simp only [h, Bool.false_eq_true, if_false]
      exact List.mem_append_right l (List.mem_singleton.mpr rfl)

/-- After add-or-update, some record carries the written name. -/
theorem any_suitesAddOrUpdate (l : List SuiteRecord) (rec : SuiteRecord) :
    (suitesAddOrUpdate l rec).any (fun s => s.name == rec.name) = true :=
  List.any_eq_true.mpr ⟨rec, mem_suitesAddOrUpdate l rec, beq_self_eq_true _⟩

/-- Add-or-update leaves exactly one record with the written name when the
registry held at most one before, and that record is the one written. -/
theorem filter_suitesAddOrUpdate (l : List SuiteRecord) (rec : SuiteRecord)
    (hwf : (l.filter (fun s => s.name == rec.name)).length ≤ 1) :
    (suitesAddOrUpdate l rec).filter (fun s => s.name == rec.name) = [rec] := by
  unfold suitesAddOrUpdate
  cases h : l.any (fun s => s.name == rec.name) with
  | false =>
      simp only [h, Bool.false_eq_true, if_false]
      rw [List.filter_append]
      have hnil : l.filter (fun s => s.name == rec.name) = [] := by
        rw [List.filter_eq_nil_iff]
        intro a ha
        rw [List.any_eq_false] at h
        exact h a ha
      rw [hnil]
      simp [beq_self_eq_true]
  | true =>
      simp only [h, if_true]
      have hone : (l.filter (fun s => s.name == rec.name)).length = 1 := by
        refine le_antisymm hwf ?_
        rw [List.any_eq_true] at h
        obtain ⟨x, hx, hpx⟩ := h
        exact List.length_pos.mpr
          (List.ne_nil_of_mem (List.mem_filter.mpr ⟨hx, hpx⟩))
      rw [filter_map_replace, hone]
      rfl

/-- Running add-or-update again with the same name does not change the
number of registered suites. -/
theorem suitesAddOrUpdate_length_stable (l : List SuiteRecord)
    (r1 r2 : SuiteRecord) (hname : r1.name = r2.name) :
    (suitesAddOrUpdate (suitesAddOrUpdate l r1) r2).length
      = (suitesAddOrUpdate l r1).length := by
  have hany : (suitesAddOrUpdate l r1).any (fun s => s.name == r2.name)
      = true := by
    have h := any_suitesAddOrUpdate l r1
    rw [hname] at h
    exact h
  conv =>
    lhs
    rw [suitesAddOrUpdate]
  rw [hany]
  simp

/-- Get-or-add of the datasource touches no other registry. -/
theorem getOrAddDataSource_fields (ctx : GxContext) (n : String) :
    (getOrAddDataSource ctx n).dataAssets = ctx.dataAssets ∧
    (getOrAddDataSource ctx n).batchDefinitions = ctx.batchDefinitions ∧
    (getOrAddDataSource ctx n).suites = ctx.suites ∧
    (getOrAddDataSource ctx n).validationDefinitions
      = ctx.validationDefinitions ∧
    (getOrAddDataSource ctx n).checkpoints = ctx.checkpoints := by
  unfold getOrAddDataSource
  by_cases h : n ∈ ctx.dataSources <;> simp [h]

/-- After get-or-add the datasource name is registered. -/
theorem mem_getOrAddDataSource (ctx : GxContext) (n : String) :
    n ∈ (getOrAddDataSource ctx n).dataSources := by
  unfold getOrAddDataSource
  by_cases h : n ∈ ctx.dataSources
  · simp [h]
  · simp [h]

/-- Get-or-add of an already registered datasource changes nothing. -/
theorem getOrAddDataSource_of_mem (ctx : GxContext) (n : String)
    (h : n ∈ ctx.dataSources) : getOrAddDataSource ctx n = ctx := by
  unfold getOrAddDataSource
  simp [h]

/-- Field-level effect of one run of create_expectation_suite on a present
CSV: datasource get-or-add, unconditional asset and batch-definition
appends, add-or-update of the suite, unconditional validation-definition
and checkpoint appends. -/
theorem create_suite_some_fields (ctx : GxContext) (df : DataFrame) :
    (create_expectation_suite ctx (some df)).finalContext.dataSources
      = (getOrAddDataSource ctx datasource_name).dataSources ∧
    (create_expectation_suite ctx (some df)).finalContext.dataAssets
      = ctx.dataAssets ++ [data_asset_name] ∧
    (create_expectation_suite ctx (some df)).finalContext.batchDefinitions
      = ctx.batchDefinitions ++ [batch_definition_name] ∧
    (create_expectation_suite ctx (some df)).finalContext.suites
      = suitesAddOrUpdate ctx.suites ⟨suite_name, kcHouseExpectations⟩ ∧
    (create_expectation_suite ctx (some df)).finalContext.validationDefinitions
      = ctx.validationDefinitions ++ [validation_definition_name] ∧
    (create_expectation_suite ctx (some df)).finalContext.checkpoints
      = ctx.checkpoints ++ [checkpoint_name] := by
  unfold create_expectation_suite add_or_update
    add_batch_definition_whole_dataframe add_dataframe_asset getOrAddDataSource
  by_cases h : datasource_name ∈ ctx.dataSources <;> simp [h]

/-- An engine project state with nothing registered. -/
def emptyCtx : GxContext := ⟨[], [], [], [], [], []⟩

/-- C3 counterexample: running the suite-definition script twice from the
empty state leaves the dataframe asset registered twice — a duplicate
registered object is created by the second run, contrary to the claim. -/
theorem second_run_duplicates_asset :
    (create_expectation_suite
        (create_expectation_suite emptyCtx (some witDf)).finalContext
        (some witDf)).finalContext.dataAssets
      = [data_asset_name, data_asset_name] := by
  decide

/-- C3 amended: re-running the suite definition with the same suite name
creates no duplicate suite — the second add-or-update replaces the first
run's rules rather than erroring, leaving exactly one suite of the name —
and no duplicate datasource; but the second run registers the dataframe
asset, batch definition, validation definition and checkpoint again,
duplicating those objects. -/
theorem suite_definition_second_run (ctx : GxContext) (df1 df2 : DataFrame)
    (hwf : (ctx.suites.filter (fun s => s.name == suite_name)).length ≤ 1) :
    (∀ r1 r2 : List Expectation,
      ((add_or_update (add_or_update ctx ⟨suite_name, r1⟩)
          ⟨suite_name, r2⟩).suites.filter (fun s => s.name == suite_name))
        = [⟨suite_name, r2⟩]) ∧
    ((create_expectation_suite
        (create_expectation_suite ctx (some df1)).finalContext
        (some df2)).finalContext.suites.filter
        (fun s => s.name == suite_name))
      = [⟨suite_name, kcHouseExpectations⟩] ∧
    (create_expectation_suite
        (create_expectation_suite ctx (some df1)).finalContext
        (some df2)).finalContext.suites.length
      = (create_expectation_suite ctx (some df1)).finalContext.suites.length ∧
    (create_expectation_suite
        (create_expectation_suite ctx (some df1)).finalContext
        (some df2)).finalContext.dataSources
      = (create_expectation_suite ctx (some df1)).finalContext.dataSources ∧
    (create_expectation_suite
        (create_expectation_suite ctx (some df1)).finalContext
        (some df2)).finalContext.dataAssets
      = (create_expectation_suite ctx (some df1)).finalContext.dataAssets
          ++ [data_asset_name] ∧
    (create_expectation_suite
        (create_expectation_suite ctx (some df1)).finalContext
        (some df2)).finalContext.batchDefinitions
      = (create_expectation_suite ctx (some df1)).finalContext.batchDefinitions
          ++ [batch_definition_name] ∧
    (create_expectation_suite
        (create_expectation_suite ctx (some df1)).finalContext
        (some df2)).finalContext.validationDefinitions
      = (create_expectation_suite
          ctx (some df1)).finalContext.validationDefinitions
          ++ [validation_definition_name] ∧
    (create_expectation_suite
        (create_expectation_suite ctx (some df1)).finalContext
        (some df2)).finalContext.checkpoints
      = (create_expectation_suite ctx (some df1)).finalContext.checkpoints
          ++ [checkpoint_name] := by
  obtain ⟨d1, a1, b1, s1, v1, c1⟩ := create_suite_some_fields ctx df1
  obtain ⟨d2, a2, b2, s2, v2, c2⟩ :=
    create_suite_some_fields
      (create_expectation_suite ctx (some df1)).finalContext df2
  refine ⟨?_, ?_, ?_, ?_, a2, b2, v2, c2⟩
  · intro r1 r2
    have h1 := filter_suitesAddOrUpdate ctx.suites ⟨suite_name, r1⟩ hwf
    have hlen : ((suitesAddOrUpdate ctx.suites ⟨suite_name, r1⟩).filter
        (fun s => s.name ==
          (⟨suite_name, r2⟩ : SuiteRecord).name)).length ≤ 1 := by
      dsimp only at h1 ⊢
      rw [h1]
      exact Nat.le.refl
    exact filter_suitesAddOrUpdate
      (suitesAddOrUpdate ctx.suites ⟨suite_name, r1⟩) ⟨suite_name, r2⟩ hlen
  · rw [s2, s1]
    have h1 := filter_suitesAddOrUpdate ctx.suites
      ⟨suite_name, kcHouseExpectations⟩ hwf
    have hlen : ((suitesAddOrUpdate ctx.suites
        ⟨suite_name, kcHouseExpectations⟩).filter
        (fun s => s.name ==
          (⟨suite_name, kcHouseExpectations⟩ : SuiteRecord).name)).length
        ≤ 1 := by
      dsimp only at h1 ⊢
      rw [h1]
      exact Nat.le.refl
    exact filter_suitesAddOrUpdate
      (suitesAddOrUpdate ctx.suites ⟨suite_name, kcHouseExpectations⟩)
      ⟨suite_name, kcHouseExpectations⟩ hlen
  · rw [s2, s1]
    exact suitesAddOrUpdate_length_stable ctx.suites
      ⟨suite_name, kcHouseExpectations⟩ ⟨suite_name, kcHouseExpectations⟩ rfl
  · rw [d2, getOrAddDataSource_of_mem
        (create_expectation_suite ctx (some df1)).finalContext datasource_name
        (by rw [d1]; exact mem_getOrAddDataSource ctx datasource_name)]

/-- Witness for the amended C3: from the empty state, two runs of the
definition leave exactly one suite of the name, holding the script's
rules. -/
theorem suite_definition_second_run_witness :
    ((create_expectation_suite
        (create_expectation_suite emptyCtx (some witDf)).finalContext
        (some witDf)).finalContext.suites.filter
        (fun s => s.name == suite_name))
      = [⟨suite_name, kcHouseExpectations⟩] :=
  (suite_definition_second_run emptyCtx witDf witDf (by decide)).2.1

end HousePriceGate
